import Mathlib

/-!
Verification of the `daily_stats_bot` reporting pipeline.

The repository has two Python source files:

* `src/daily_bot_stats_extract.py` — the extractor: opens a Redshift
  connection, runs four queries (daily snapshot, churn-by-period,
  coupon performance, signups-by-coupon-period), flattens the results
  into one mapping, forwards it, and reports failures to SNS.
* `src/revii_stats_notify.py` — the notifier: queries the Pendo
  analytics API over a fixed segment/page and segment/feature grid,
  builds a Slack message from the received mapping, and posts it.

This file shallowly embeds the data-shaping logic of both programs:
Python strings become `List Char`, Python dicts become insertion-ordered
association lists, SQL aggregation becomes list counting, and the
network boundary (query results, HTTP responses, SNS publish outcomes)
becomes explicit environment parameters.  Fallible code returns
`Except`.  Theorems about the embedded definitions follow the
definitions.
-/

/-- Python strings are modelled as lists of characters. -/
abbrev Str := List Char

/-- Python `str.lower()` (the strings involved are ASCII). -/
def pyLower (s : Str) : Str := s.map Char.toLower

/-- `occursIn p s` holds when `p` occurs as a contiguous substring of `s`
(at any position), mirroring Python's `p in s`. -/
def occursIn (p : Str) : Str → Bool
  | [] => p.isPrefixOf []
  | c :: rest => p.isPrefixOf (c :: rest) || occursIn p rest

/-- `noSelfOverlapB t` states that no nonempty proper shift of `t` matches a
prefix of `t`; patterns with this property cannot have occurrences that
straddle a boundary with a fresh copy of `t`. -/
def noSelfOverlapB (t : Str) : Bool :=
  (List.range t.length).all fun d => decide (d = 0) || ! (t.drop d).isPrefixOf t

/-- Fuelled worker for `pyReplace`.  One unit of fuel is spent per character
position, which bounds the left-to-right scan of Python's `str.replace`. -/
def pyReplaceF : Nat → Str → Str → Str → Str
  | 0, s, _, _ => s
  | fuel + 1, s, old, new =>
    match s with
    | [] => []
    | c :: rest =>
      if old.isPrefixOf (c :: rest) then
        new ++ pyReplaceF fuel ((c :: rest).drop old.length) old new
      else
        c :: pyReplaceF fuel rest old new

/-- Python `s.replace(old, new)`: replace every non-overlapping occurrence of
`old` in `s`, scanning left to right.  (All call sites in the sources use a
nonempty `old`; the empty-pattern corner of Python's `replace` is not used.) -/
def pyReplace (s old new : Str) : Str := pyReplaceF s.length s old new

/-- Scalar values held by the extractor's result mapping: what a Redshift
driver row can contain (`int`, `float`, `decimal.Decimal`, `str`, `None`).
Python floats and decimals are represented by their rational value; the
claims checked here depend only on the representation tag, not on
floating-point rounding. -/
inductive PyVal where
  | pyInt (n : Int)
  | pyFloat (q : Rat)
  | pyDecimal (q : Rat)
  | pyStr (s : Str)
  | pyNone
deriving DecidableEq

/-- Representation test: is the value a plain Python `float`? -/
def isFloatV : PyVal → Bool
  | .pyFloat _ => true
  | _ => false

/-- Representation test: is the value a `decimal.Decimal`? -/
def isDecimalV : PyVal → Bool
  | .pyDecimal _ => true
  | _ => false

/-- `daily_bot_stats_extract.py` line 161:
`float(rate) if isinstance(rate, Decimal) else rate` —
only `Decimal` values are coerced to `float`; every other representation is
passed through unchanged. -/
def normalizeRate (v : PyVal) : PyVal :=
  match v with
  | .pyDecimal q => .pyFloat q
  | v => v

/-- The extractor's result mapping: a Python dict (string keys, insertion
ordered). -/
abbrev Dict := List (Str × PyVal)

/-- Keys of a dict, in insertion order. -/
def dictKeys {α : Type} (m : List (Str × α)) : List Str := m.map (·.1)

/-- Python `m[k] = v`: overwrite in place when the key exists, else append. -/
def dictSet {α : Type} (m : List (Str × α)) (k : Str) (v : α) : List (Str × α) :=
  if k ∈ dictKeys m then
    m.map fun kv => if kv.1 = k then (k, v) else kv
  else
    m ++ [(k, v)]

/-- Python `m.get(k)`-style lookup returning the stored value when present. -/
def dictGet? {α : Type} (m : List (Str × α)) (k : Str) : Option α :=
  (m.find? fun kv => decide (kv.1 = k)).map (·.2)

/-- Python `m.update(pairs)`. -/
def dictUpdate {α : Type} (m : List (Str × α)) (pairs : List (Str × α)) : List (Str × α) :=
  pairs.foldl (fun m kv => dictSet m kv.1 kv.2) m

/-- One row of the coupon-performance query
(`SELECT coupon_code, coupon_active_subscriptions, total_trials,
total_conversions, percent_converted FROM base_data`). -/
structure CouponRow where
  code : Str
  active : PyVal
  trials : PyVal
  convs : PyVal
  rate : PyVal
deriving DecidableEq

/-- Key suffix for the per-coupon active-subscription count. -/
def sufActive : Str := "_coupon_active_subscriptions".data

/-- Key suffix for the per-coupon trial count. -/
def sufTrials : Str := "_total_trials".data

/-- Key suffix for the per-coupon conversion count. -/
def sufConv : Str := "_total_conversions".data

/-- Key suffix for the per-coupon conversion rate. -/
def sufRate : Str := "_conversion_rate".data

/-- The four dynamic key suffixes emitted per coupon code, in source order. -/
def couponSuffixes : List Str := [sufActive, sufTrials, sufConv, sufRate]

/-- `daily_bot_stats_extract.py` lines 156-161: the four mapping entries
emitted for one coupon row (the conversion rate passes through
`normalizeRate`). -/
def couponEntries (r : CouponRow) : List (Str × PyVal) :=
  [ (r.code ++ sufActive, r.active)
  , (r.code ++ sufTrials, r.trials)
  , (r.code ++ sufConv, r.convs)
  , (r.code ++ sufRate, normalizeRate r.rate) ]

/-- The coupon flattening loop: for each row, store its four entries into the
result dict. -/
def flattenCoupons (rows : List CouponRow) (init : Dict) : Dict :=
  rows.foldl (fun m r => (couponEntries r).foldl (fun m kv => dictSet m kv.1 kv.2) m) init

/-- One row of the signups-by-coupon query (`period, new_signups_without_coupon,
new_signups_with_coupon, total_new_signups`). -/
structure SignupRow where
  period : Str
  withoutCoupon : PyVal
  withCoupon : PyVal
  total : PyVal
deriving DecidableEq

/-- `daily_bot_stats_extract.py` lines 206-209: the three mapping entries
emitted for one signup-period row. -/
def signupEntries (r : SignupRow) : List (Str × PyVal) :=
  [ (r.period ++ "_new_signups_without_coupon".data, r.withoutCoupon)
  , (r.period ++ "_new_signups_with_coupon".data, r.withCoupon)
  , (r.period ++ "_total_new_signups".data, r.total) ]

/-- The signup flattening loop. -/
def flattenSignups (rows : List SignupRow) (init : Dict) : Dict :=
  rows.foldl (fun m r => (signupEntries r).foldl (fun m kv => dictSet m kv.1 kv.2) m) init

/-- One row of the `daily_bot_signup_churn` table, as read by the churn query.
Dates are day numbers (an integer timeline suffices for the window
comparisons in the query). -/
structure ChurnRow where
  email : Option Str
  status : Str
  statusDate : Int

/-- SQL `COUNT(DISTINCT CASE WHEN cond THEN email END)`: the number of
distinct non-null emails among the rows satisfying `cond`. -/
def countDistinctEmails (rows : List ChurnRow) (cond : ChurnRow → Bool) : Nat :=
  (((rows.filter cond).filterMap (·.email)).dedup).length

/-- The five aggregate columns each churn CTE produces. -/
structure ChurnCounts where
  conversion : Nat
  canceled : Nat
  noneStatus : Nat
  newSignup : Nat
  pastDue : Nat
deriving DecidableEq

/-- Shared shape of the three churn CTEs: the four status partitions plus the
past-due trailing count, computed over `base` with trailing-window predicate
`trailing`. -/
def churnCounts (base : List ChurnRow) (trailing : ChurnRow → Bool) : ChurnCounts :=
  { conversion := countDistinctEmails base fun r => decide (r.status = "Conversion".data)
  , canceled := countDistinctEmails base fun r => decide (r.status = "Canceled".data)
  , noneStatus := countDistinctEmails base fun r => decide (r.status = "None".data)
  , newSignup := countDistinctEmails base fun r => decide (r.status = "New Signup".data)
  , pastDue := countDistinctEmails base trailing }

/-- `churn_total` CTE: all rows with non-null email; the past-due count uses
`status_date >= CURRENT_DATE - INTERVAL '7 days'`. -/
def churnTotal (rows : List ChurnRow) (today : Int) : ChurnCounts :=
  churnCounts (rows.filter fun r => r.email.isSome)
    (fun r => decide (today - 7 ≤ r.statusDate))

/-- The `churn_last_week` CTE's WHERE window:
`status_date >= CURRENT_DATE - INTERVAL '7 days' AND status_date < CURRENT_DATE`
(plus non-null email). -/
def weekWindow (rows : List ChurnRow) (today : Int) : List ChurnRow :=
  rows.filter fun r => r.email.isSome && decide (today - 7 ≤ r.statusDate) && decide (r.statusDate < today)

/-- `churn_last_week` CTE: rows of the 7-day window; the past-due count again
uses `status_date >= CURRENT_DATE - INTERVAL '7 days'`. -/
def churnLastWeek (rows : List ChurnRow) (today : Int) : ChurnCounts :=
  churnCounts (weekWindow rows today) (fun r => decide (today - 7 ≤ r.statusDate))

/-- The `churn_last_month` CTE's WHERE window:
`status_date >= CURRENT_DATE - INTERVAL '1 month' AND status_date < CURRENT_DATE`
(plus non-null email).  `monthAgo` is the day number of
`CURRENT_DATE - INTERVAL '1 month'`, kept abstract because calendar-month
subtraction varies in length. -/
def monthWindow (rows : List ChurnRow) (today monthAgo : Int) : List ChurnRow :=
  rows.filter fun r => r.email.isSome && decide (monthAgo ≤ r.statusDate) && decide (r.statusDate < today)

/-- `churn_last_month` CTE: rows of the 1-month window; its past-due count uses
`status_date >= CURRENT_DATE - INTERVAL '1 month'` (source line 97), not the
7-day interval the other two CTEs use. -/
def churnLastMonth (rows : List ChurnRow) (today monthAgo : Int) : ChurnCounts :=
  churnCounts (monthWindow rows today monthAgo) (fun r => decide (monthAgo ≤ r.statusDate))

/-- Outcomes of the external calls `get_data_from_redshift` performs: the
connection attempt plus the four query/unpack steps.  A `.error` models the
query execution or the row unpacking raising. -/
structure RsEnv where
  connectOk : Bool
  staticQ : Except Str (List (Str × PyVal))
  churnQ : Except Str (List (Str × PyVal))
  couponQ : Except Str (List CouponRow)
  signupQ : Except Str (List SignupRow)

/-- What an invocation of `get_data_from_redshift` leaves behind: its return
value or exception, and whether the warehouse connection got opened and
whether it got closed. -/
structure RsOutcome where
  result : Except Str Dict
  connOpened : Bool
  connClosed : Bool

/-- `daily_bot_stats_extract.py` lines 21-213, `get_data_from_redshift`:
connect, run the four queries in order, flatten into one dict, close, return.
`cursor.close(); conn.close()` (lines 211-212) is the only close and there is
no `finally`, so any raising step propagates with the connection still
open. -/
def getDataFromRedshift (env : RsEnv) : RsOutcome :=
  if env.connectOk then
    match env.staticQ with
    | .error e => { result := .error e, connOpened := true, connClosed := false }
    | .ok staticPairs =>
      match env.churnQ with
      | .error e => { result := .error e, connOpened := true, connClosed := false }
      | .ok churnPairs =>
        match env.couponQ with
        | .error e => { result := .error e, connOpened := true, connClosed := false }
        | .ok couponRows =>
          match env.signupQ with
          | .error e => { result := .error e, connOpened := true, connClosed := false }
          | .ok signupRows =>
            let r0 := dictUpdate [] staticPairs
            let r1 := dictUpdate r0 churnPairs
            let r2 := flattenCoupons couponRows r1
            let r3 := flattenSignups signupRows r2
            { result := .ok r3, connOpened := true, connClosed := true }
  else
    { result := .error "Error connecting to Redshift".data, connOpened := false, connClosed := false }

/-- Log records produced through `logger.info` / `logger.error`. -/
inductive LogEntry where
  | info (msg : Str)
  | logError (msg : Str)
deriving DecidableEq

/-- `daily_bot_stats_extract.py` lines 215-226, `send_sns_notification`: on
publish success log an info line; on publish failure log the error and
re-raise it (`raise` on line 226 rethrows the SNS exception).  `snsFail`
is the outcome of the `sns_client.publish` call. -/
def sendSnsNotification (snsFail : Option Str) (message : Str) : List LogEntry × Except Str Unit :=
  match snsFail with
  | none => ([.info "SNS notification sent successfully.".data], .ok ())
  | some e => ([.logError ("Failed to send SNS notification: ".data ++ e)], .error e)

/-- Environment of one extractor invocation: the outcome of
`get_data_from_redshift` (collapsed to its result), of `lambda_client.invoke`,
and of the SNS publish used on failure. -/
structure ExtractEnv where
  redshiftData : Except Str Dict
  invokeFail : Option Str
  snsFail : Option Str

/-- `daily_bot_stats_extract.py` lines 228-240, `lambda_handler`: try to
extract and forward; on any exception, log it, call `send_sns_notification`,
then re-raise.  When `send_sns_notification` itself raises, that exception
escapes the `except` block before the final `raise` is reached, so it is the
one that propagates. -/
def lambdaHandlerExtract (env : ExtractEnv) : List LogEntry × Except Str Str :=
  let body : Except Str Unit := do
    let _ ← env.redshiftData
    match env.invokeFail with
    | some e => .error e
    | none => .ok ()
  match body with
  | .ok _ => ([], .ok "Payload sent to daily_bot_stats_notify".data)
  | .error e =>
    let logs := [LogEntry.logError ("Lambda daily_bot_stats_extract failed: ".data ++ e)]
    let (snsLogs, snsRes) := sendSnsNotification env.snsFail e
    match snsRes with
    | .error e2 => (logs ++ snsLogs, .error e2)
    | .ok _ => (logs ++ snsLogs, .error e)

/-- Values of the JSON payload the notifier receives (`event`): integers,
strings, or JSON null (Python `None`). -/
inductive EVal where
  | vInt (n : Int)
  | vStr (s : Str)
  | vNull
deriving DecidableEq

/-- Is the value a Python `int`? -/
def isIntVal : EVal → Bool
  | .vInt _ => true
  | _ => false

/-- The notifier's event mapping: a JSON-decoded Python dict. -/
abbrev Event := List (Str × EVal)

/-- Python `event.get(k, d)`. -/
def pyGet (e : Event) (k : Str) (d : EVal) : EVal :=
  match e.find? fun kv => decide (kv.1 = k) with
  | some kv => kv.2
  | none => d

/-- Python `str(v)` as used by f-string interpolation. -/
def renderVal : EVal → Str
  | .vInt n => (toString n).data
  | .vStr s => s
  | .vNull => "None".data

/-- `revii_stats_notify.py` line 171: derive the coupon prefixes from a key
list by keeping the keys that end with `_coupon_active_subscriptions` and
replacing that suffix with the empty string. -/
def couponPrefixesOf (ks : List Str) : List Str :=
  (ks.filter fun k => sufActive.isSuffixOf k).map fun k => pyReplace k sufActive []

/-- The coupon prefixes discovered from an event mapping's keys. -/
def couponPrefixes (e : Event) : List Str := couponPrefixesOf (dictKeys e)

/-- The lowercase sentinel the notifier compares coupon prefixes against. -/
def noCouponLit : Str := "no coupon code".data

/-- Worker for `pySum`: fold the values into `acc`, aborting on the first
non-`int` operand. -/
def pySumGo (acc : Int) : List EVal → Except Str Int
  | [] => .ok acc
  | v :: vs =>
    match v with
    | .vInt n => pySumGo (acc + n) vs
    | _ => .error "TypeError: unsupported operand type for +".data

/-- Python `sum(...)` over looked-up values: a left fold starting from `0`
that raises a `TypeError` on the first non-`int` operand. -/
def pySum (vs : List EVal) : Except Str Int := pySumGo 0 vs

/-- `revii_stats_notify.py` line 172: sum of the per-prefix active
subscription counts. -/
def totalActiveUsers (e : Event) : Except Str Int :=
  pySum ((couponPrefixes e).map fun p => pyGet e (p ++ sufActive) (.vInt 0))

/-- `revii_stats_notify.py` line 173: the first discovered prefix whose
lowercase form is `no coupon code`, if any. -/
def noCouponKeyOf (e : Event) : Option Str :=
  (couponPrefixes e).find? fun p => decide (pyLower p = noCouponLit)

/-- `revii_stats_notify.py` line 174: the trial count of the no-coupon
prefix (0 when no prefix lowercases to the sentinel). -/
def trialsWithoutCoupon (e : Event) : EVal :=
  match noCouponKeyOf e with
  | some p => pyGet e (p ++ sufTrials) (.vInt 0)
  | none => .vInt 0

/-- `revii_stats_notify.py` line 175: sum of the trial counts of every
prefix whose lowercase form is not the no-coupon sentinel. -/
def trialsWithCoupon (e : Event) : Except Str Int :=
  pySum
    (((couponPrefixes e).filter fun p => ! decide (pyLower p = noCouponLit)).map
      fun p => pyGet e (p ++ sufTrials) (.vInt 0))

/-- One row of the views dataframe built by `extract_data`. -/
structure ViewRow where
  segment : Str
  page : Str
  views : Int
deriving DecidableEq

/-- One row of the clicks dataframe built by `extract_data`. -/
structure ClickRow where
  segment : Str
  group : Str
  clicks : Int
deriving DecidableEq

/-- Join lines with a newline character, as `"\n".join(lines)` does. -/
def joinLines (ls : List Str) : Str := (ls.intersperse ['\n']).flatten

/-- `revii_stats_notify.py` lines 163-181, `build_message`: renders the fixed
sequence of report lines from the event mapping.  The two dataframes are
accepted (as in the source signature) and not read by the body.  The result
is the joined message text, or the `TypeError` Python would raise when one of
the two sums meets a non-integer value. -/
def buildMessage (event : Event) (dfClicks : List ClickRow) (dfViews : List ViewRow) :
    Except Str Str := do
  let reportDate := renderVal (pyGet event "report_date".data (.vStr []))
  let tot := pyGet event "total".data (.vInt 0)
  let tau ← totalActiveUsers event
  let two := trialsWithoutCoupon event
  let tw ← trialsWithCoupon event
  pure (joinLines
    [ "Stats for ".data ++ reportDate
    , "•  Lifetime user total: ".data ++ renderVal tot
    , "•  Active snapshot stats :".data
    , "   ○  Total Active Users: ".data ++ (toString tau).data
    , "   ○  Total Active Trial Users without a coupon: ".data ++ renderVal two
    , "   ○  Total Active Trial Users with a coupon: ".data ++ (toString tw).data ])

/-- Deployment configuration of the Pendo grids: the segment, page, and
feature identifiers supplied through environment variables. -/
structure PendoConfig where
  segA : Str
  segB : Str
  pageWeb : Str
  pageIOS : Str
  pageAndroid : Str
  featRoleplay : Str
  featAuto1 : Str
  featAuto2 : Str
  featAuto3 : Str

/-- `SEGMENTS` dict of `revii_stats_notify.py` (insertion order). -/
def segmentsList (cfg : PendoConfig) : List (Str × Str) :=
  [("Segment-A".data, cfg.segA), ("Segment-B".data, cfg.segB)]

/-- `PAGES` dict of `revii_stats_notify.py` (insertion order). -/
def pagesList (cfg : PendoConfig) : List (Str × Str) :=
  [("Web".data, cfg.pageWeb), ("iOS".data, cfg.pageIOS), ("Android".data, cfg.pageAndroid)]

/-- `FEATURE_GROUPS` dict of `revii_stats_notify.py` (insertion order). -/
def featureGroupsList (cfg : PendoConfig) : List (Str × List Str) :=
  [ ("Roleplay".data, [cfg.featRoleplay])
  , ("Automation".data, [cfg.featAuto1, cfg.featAuto2, cfg.featAuto3]) ]

/-- One Pendo aggregation query: a page-views query or a single-feature
clicks query, identified by the segment and dimension ids it carries. -/
inductive PendoQuery where
  | pageQ (segId pageId : Str)
  | featQ (segId featId : Str)
deriving DecidableEq

/-- The analytics API as seen by the notifier: each issued query either
yields the extracted count or raises (`raise_for_status` on a non-success
response). -/
abbrev PendoResp := PendoQuery → Except Str Int

/-- `itertools.product` over two lists (outer loop over the first). -/
def listProd {α β : Type} (xs : List α) (ys : List β) : List (α × β) :=
  xs.flatMap fun x => ys.map fun y => (x, y)

/-- `mapM` for `Except`, written out structurally: process the items in
order and abort on the first failure, as the notifier's sequential loops
do. -/
def mapME {α β : Type} (f : α → Except Str β) : List α → Except Str (List β)
  | [] => .ok []
  | x :: xs => do
    let y ← f x
    let ys ← mapME f xs
    pure (y :: ys)

/-- One page-views grid cell (`revii_stats_notify.py` lines 85-120): issue the
query for the `(segment, page)` pair and wrap the count into a row. -/
def viewCell (resp : PendoResp) (sp : (Str × Str) × (Str × Str)) : Except Str ViewRow := do
  let v ← resp (.pageQ sp.1.2 sp.2.2)
  pure { segment := sp.1.1, page := sp.2.1, views := v }

/-- One clicks grid cell (`revii_stats_notify.py` lines 122-130): one query per
feature id in the group, summed client-side. -/
def clickCell (resp : PendoResp) (sg : (Str × Str) × (Str × List Str)) : Except Str ClickRow := do
  let cs ← mapME (fun fid => resp (.featQ sg.1.2 fid)) sg.2.2
  pure { segment := sg.1.1, group := sg.2.1, clicks := cs.foldl (· + ·) 0 }

/-- `revii_stats_notify.py` lines 81-134, `extract_data`: one page-views
query per `(segment, page)` pair in `product` order, then for each
`(segment, feature group)` pair one clicks query per feature id, summed
client-side.  Any raising query aborts the whole extraction. -/
def extractData (cfg : PendoConfig) (resp : PendoResp) :
    Except Str (List ClickRow × List ViewRow) := do
  let viewRows ← mapME (viewCell resp) (listProd (segmentsList cfg) (pagesList cfg))
  let clickRows ← mapME (clickCell resp) (listProd (segmentsList cfg) (featureGroupsList cfg))
  pure (clickRows, viewRows)

/-- Every query one full notifier run issues: the six page-view cells
followed by the per-feature click queries of the four group cells. -/
def pendoGridQueries (cfg : PendoConfig) : List PendoQuery :=
  ((listProd (segmentsList cfg) (pagesList cfg)).map fun sp => .pageQ sp.1.2 sp.2.2) ++
    ((listProd (segmentsList cfg) (featureGroupsList cfg)).flatMap
      fun sg => sg.2.2.map fun fid => .featQ sg.1.2 fid)

/-- Outward calls the notifier makes after the analytics phase. -/
inductive NotifyAction where
  | slackPost (msg : Str)
  | snsPublish (msg : Str)
deriving DecidableEq

/-- Was the Slack webhook called at all? -/
def calledSlack (as : List NotifyAction) : Bool :=
  as.any fun a =>
    match a with
    | .slackPost _ => true
    | _ => false

/-- `revii_stats_notify.py` lines 152-161, `send_to_slack`: the webhook is
posted to (recorded as an action), then a non-2xx response raises a wrapped
exception. -/
def sendToSlack (slackFail : Option Str) (msg : Str) : List NotifyAction × Except Str Unit :=
  match slackFail with
  | none => ([.slackPost msg], .ok ())
  | some e => ([.slackPost msg], .error ("Failed to send to Slack: ".data ++ e))

/-- `revii_stats_notify.py` lines 136-150, `send_sns_notification`: publish
is attempted (recorded as an action); a publish failure is re-raised. -/
def sendSnsNotificationN (snsFail : Option Str) (msg : Str) : List NotifyAction × Except Str Unit :=
  match snsFail with
  | none => ([.snsPublish msg], .ok ())
  | some e => ([.snsPublish msg], .error e)

/-- Environment of one notifier invocation. -/
structure NotifyEnv where
  cfg : PendoConfig
  resp : PendoResp
  event : Event
  slackFail : Option Str
  snsFail : Option Str

/-- `revii_stats_notify.py` lines 183-198, `lambda_handler`: extract the
analytics grids, build the message, post it to Slack; any exception is
reported to SNS and re-raised (the SNS failure, if any, replacing it).
Returns the outward actions performed and the final outcome. -/
def lambdaHandlerNotify (env : NotifyEnv) : List NotifyAction × Except Str Unit :=
  let body : Except Str Str := do
    let dfs ← extractData env.cfg env.resp
    let msg ← buildMessage env.event dfs.1 dfs.2
    pure msg
  match body with
  | .ok msg =>
    let (aSlack, rSlack) := sendToSlack env.slackFail msg
    match rSlack with
    | .ok _ => (aSlack, .ok ())
    | .error e =>
      let (aSns, rSns) := sendSnsNotificationN env.snsFail ("Lambda job revii_stats_notify failed: ".data ++ e)
      match rSns with
      | .error e2 => (aSlack ++ aSns, .error e2)
      | .ok _ => (aSlack ++ aSns, .error e)
  | .error e =>
    let (aSns, rSns) := sendSnsNotificationN env.snsFail ("Lambda job revii_stats_notify failed: ".data ++ e)
    match rSns with
    | .error e2 => (aSns, .error e2)
    | .ok _ => (aSns, .error e)

/-- Is an `Except` outcome an error? -/
def exceptIsError {α : Type} (x : Except Str α) : Bool :=
  match x with
  | .error _ => true
  | .ok _ => false

/-- Does the optional looked-up value hold a plain Python `float`? -/
def optIsFloat : Option PyVal → Bool
  | some (.pyFloat _) => true
  | _ => false

/-- The integer carried by an `int` value, `0` otherwise; used to state what
the report sums evaluate to on integer-valued mappings. -/
def evalIntD : EVal → Int
  | .vInt n => n
  | _ => 0

/-- Total-function counterpart of `totalActiveUsers` on integer-valued
mappings. -/
def totalActiveUsersT (e : Event) : Int :=
  ((couponPrefixes e).map fun p => evalIntD (pyGet e (p ++ sufActive) (.vInt 0))).foldl (· + ·) 0

/-- Total-function counterpart of `trialsWithCoupon` on integer-valued
mappings. -/
def trialsWithCouponT (e : Event) : Int :=
  (((couponPrefixes e).filter fun p => ! decide (pyLower p = noCouponLit)).map
      fun p => evalIntD (pyGet e (p ++ sufTrials) (.vInt 0))).foldl (· + ·) 0

/-- A one-row churn table: email `a`, status `Canceled`, status date 80 (with
the current date at 100 and the month boundary at 70, this date is inside the
month window but more than 7 days old). -/
def churnRowsCe : List ChurnRow :=
  [{ email := some "a".data, status := "Canceled".data, statusDate := 80 }]

/-- A run in which the connection succeeds but the first (daily snapshot)
query step raises — e.g. `fetchone` returned no row and the unpacking
failed. -/
def rsEnvCe : RsEnv :=
  { connectOk := true, staticQ := .error "static query failed".data
  , churnQ := .ok [], couponQ := .ok [], signupQ := .ok [] }

/-- An extractor run whose Redshift phase raises `boom` and whose SNS publish
then raises `sns down`. -/
def extractEnvCe : ExtractEnv :=
  { redshiftData := .error "boom".data, invokeFail := none, snsFail := some "sns down".data }

/-- A coupon row whose conversion rate arrives as `Decimal` 2/5. -/
def couponRowDec : CouponRow :=
  { code := "SAVE10".data, active := .pyInt 5, trials := .pyInt 20
  , convs := .pyInt 8, rate := .pyDecimal (2 / 5) }

/-- A coupon row whose conversion rate arrives as the integer `0`. -/
def couponRowInt : CouponRow :=
  { code := "SAVE10".data, active := .pyInt 5, trials := .pyInt 20
  , convs := .pyInt 8, rate := .pyInt 0 }

/-- The sentinel coupon row (`No Coupon Code`), rate already a float. -/
def couponRowNo : CouponRow :=
  { code := "No Coupon Code".data, active := .pyInt 50, trials := .pyInt 100
  , convs := .pyInt 60, rate := .pyFloat (3 / 5) }

/-- A two-row coupon result set with distinct codes. -/
def couponRowsW : List CouponRow := [couponRowDec, couponRowNo]

/-- A result mapping already holding a static key before coupon flattening. -/
def initW : Dict := [("total".data, PyVal.pyInt 100)]

/-- A sample Pendo grid configuration with distinct identifiers. -/
def cfgW : PendoConfig :=
  { segA := "seg-a".data, segB := "seg-b".data
  , pageWeb := "pg-web".data, pageIOS := "pg-ios".data, pageAndroid := "pg-and".data
  , featRoleplay := "ft-rp".data, featAuto1 := "ft-a1".data
  , featAuto2 := "ft-a2".data, featAuto3 := "ft-a3".data }

/-- An analytics API that answers every pipeline query with a 500. -/
def respFail : PendoResp := fun _ => .error "500 Server Error".data

/-- A notifier run against the failing analytics API. -/
def envW : NotifyEnv :=
  { cfg := cfgW, resp := respFail, event := [], slackFail := none, snsFail := none }

/-- An event mapping with a string report date, an integer lifetime total, and
one coupon group with integer counts. -/
def eventW : Event :=
  [ ("report_date".data, .vStr "04/01/2025".data)
  , ("total".data, .vInt 10)
  , ("SAVE10".data ++ sufActive, .vInt 5)
  , ("SAVE10".data ++ sufTrials, .vInt 20) ]

/-- An event mapping whose only coupon key holds JSON null. -/
def eventNull : Event := [("A".data ++ sufActive, EVal.vNull)]

theorem pyReplaceF_nil (fuel : Nat) (old new : Str) : pyReplaceF fuel [] old new = [] := by
  cases fuel <;> rfl

theorem suffix_of_suffix_le {l₁ l₂ l₃ : Str} (h1 : l₁ <:+ l₃) (h2 : l₂ <:+ l₃)
    (h : l₁.length ≤ l₂.length) : l₁ <:+ l₂ := by
  rw [← List.reverse_prefix] at h1 h2 ⊢
  exact List.prefix_of_prefix_length_le h1 h2 (by simpa using h)

theorem pyReplaceF_cons (fuel : Nat) (c : Char) (rest old new : Str) :
    pyReplaceF (fuel + 1) (c :: rest) old new =
      if old.isPrefixOf (c :: rest) = true then
        new ++ pyReplaceF fuel ((c :: rest).drop old.length) old new
      else c :: pyReplaceF fuel rest old new := rfl

theorem no_straddle {t c : Str} (hno : noSelfOverlapB t = true) (hc : occursIn t c = false)
    (hcne : c ≠ []) : ¬ (t <+: c ++ t) := by
  intro hpre
  rcases le_or_lt t.length c.length with hle | hlt
  · have hct : c <+: c ++ t := List.prefix_append c t
    have htc : t <+: c := List.prefix_of_prefix_length_le hpre hct hle
    have hocc0 : occursIn t c = true := by
      cases c with
      | nil => exact absurd rfl hcne
      | cons a l =>
        unfold occursIn
        rw [List.isPrefixOf_iff_prefix.mpr htc]
        rfl
    rw [hocc0] at hc
    exact Bool.noConfusion hc
  · have htake : t = (c ++ t).take t.length := List.prefix_iff_eq_take.mp hpre
    have hfin : t.drop c.length = t.take (t.length - c.length) := by
      conv_lhs => rw [htake]
      rw [List.drop_take, List.drop_left]
    have hpre2 : (t.drop c.length) <+: t := by
      rw [hfin]; exact List.take_prefix _ _
    have hd : c.length ∈ List.range t.length := List.mem_range.mpr hlt
    have hall := (List.all_eq_true.mp hno) _ hd
    have hc0 : ¬ (c.length = 0) := by
      intro h0
      exact hcne (List.length_eq_zero.mp h0)
    rw [decide_eq_false hc0] at hall
    rw [Bool.false_or, Bool.not_eq_true', Bool.eq_false_iff] at hall
    exact hall (List.isPrefixOf_iff_prefix.mpr hpre2)

theorem pyReplaceF_append_self {t : Str} (hno : noSelfOverlapB t = true) (ht : t ≠ []) :
    ∀ (c : Str) (fuel : Nat), (c ++ t).length ≤ fuel → occursIn t c = false →
      pyReplaceF fuel (c ++ t) t [] = c := by
  intro c
  induction c with
  | nil =>
    intro fuel hfuel _
    cases fuel with
    | zero =>
      exfalso
      simp only [List.nil_append] at hfuel
      exact ht (List.length_eq_zero.mp (Nat.le_zero.mp hfuel))
    | succ f =>
      simp only [List.nil_append]
      obtain ⟨a, rest, htt⟩ : ∃ a rest, t = a :: rest := by
        cases t with
        | nil => exact absurd rfl ht
        | cons a rest => exact ⟨a, rest, rfl⟩
      subst htt
      rw [pyReplaceF_cons]
      rw [if_pos (List.isPrefixOf_iff_prefix.mpr (List.prefix_refl _))]
      rw [List.nil_append, List.drop_length, pyReplaceF_nil]
  | cons ch c' ih =>
    intro fuel hfuel hocc
    have hocc' : t.isPrefixOf (ch :: c') = false ∧ occursIn t c' = false := by
      unfold occursIn at hocc
      exact Bool.or_eq_false_iff.mp hocc
    cases fuel with
    | zero =>
      exfalso
      simp only [List.cons_append, List.length_cons] at hfuel
      exact Nat.not_succ_le_zero _ hfuel
    | succ f =>
      show pyReplaceF (f + 1) ((ch :: c') ++ t) t [] = ch :: c'
      have hg : t.isPrefixOf (ch :: (c' ++ t)) = false := by
        rw [Bool.eq_false_iff]
        intro habs
        have hpre := List.isPrefixOf_iff_prefix.mp habs
        rw [← List.cons_append] at hpre
        exact no_straddle hno hocc (by simp) hpre
      rw [List.cons_append, pyReplaceF_cons, hg]
      simp only [Bool.false_eq_true, if_false]
      have hlen : (c' ++ t).length ≤ f := by
        simp only [List.cons_append, List.length_cons] at hfuel
        exact Nat.le_of_succ_le_succ hfuel
      rw [ih f hlen hocc'.2]

theorem pyReplace_append_self {t c : Str} (hno : noSelfOverlapB t = true) (ht : t ≠ [])
    (hocc : occursIn t c = false) : pyReplace (c ++ t) t [] = c :=
  pyReplaceF_append_self hno ht c (c ++ t).length le_rfl hocc

theorem sufActive_noSelfOverlap : noSelfOverlapB sufActive = true := by decide

theorem sufActive_ne_nil : sufActive ≠ [] := by decide

theorem isSuffixOf_append_self (c : Str) : sufActive.isSuffixOf (c ++ sufActive) = true :=
  List.isSuffixOf_iff_suffix.mpr (List.suffix_append c sufActive)

theorem sufActive_not_suffix {s : Str} (hs : s = sufTrials ∨ s = sufConv ∨ s = sufRate)
    (c : Str) : sufActive.isSuffixOf (c ++ s) = false := by
  rw [Bool.eq_false_iff]
  intro habs
  have h1 : sufActive <:+ c ++ s := List.isSuffixOf_iff_suffix.mp habs
  have h2 : s <:+ c ++ s := List.suffix_append c s
  have hle : s.length ≤ sufActive.length := by
    rcases hs with h | h | h <;> rw [h] <;> decide
  have hss : s <:+ sufActive := suffix_of_suffix_le h2 h1 hle
  rcases hs with h | h | h <;> rw [h] at hss <;> exact absurd hss (by decide)

theorem couponKeysInj {c1 c2 s1 s2 : Str} (h1 : s1 ∈ couponSuffixes) (h2 : s2 ∈ couponSuffixes)
    (h : c1 ++ s1 = c2 ++ s2) : c1 = c2 ∧ s1 = s2 := by
  have hs1 : s1 <:+ c2 ++ s2 := h ▸ List.suffix_append c1 s1
  have hs2 : s2 <:+ c2 ++ s2 := List.suffix_append c2 s2
  have htab : ∀ a ∈ couponSuffixes, ∀ b ∈ couponSuffixes, a <:+ b → a = b := by decide
  have hss : s1 = s2 := by
    rcases le_or_lt s1.length s2.length with hle | hlt
    · exact htab s1 h1 s2 h2 (suffix_of_suffix_le hs1 hs2 hle)
    · exact (htab s2 h2 s1 h1 (suffix_of_suffix_le hs2 hs1 (Nat.le_of_lt hlt))).symm
  subst hss
  exact ⟨List.append_cancel_right h, rfl⟩

theorem dictSet_fresh {α : Type} (m : List (Str × α)) (k : Str) (v : α) (h : k ∉ dictKeys m) :
    dictSet m k v = m ++ [(k, v)] := by
  simp [dictSet, h]

theorem dictKeys_append {α : Type} (m1 m2 : List (Str × α)) :
    dictKeys (m1 ++ m2) = dictKeys m1 ++ dictKeys m2 := by
  simp [dictKeys]

theorem foldl_dictSet_fresh {α : Type} (entries : List (Str × α)) (m : List (Str × α))
    (h1 : ∀ kv ∈ entries, kv.1 ∉ dictKeys m)
    (h2 : (entries.map (·.1)).Nodup) :
    entries.foldl (fun m kv => dictSet m kv.1 kv.2) m = m ++ entries := by
  induction entries generalizing m with
  | nil => simp
  | cons kv rest ih =>
    simp only [List.foldl_cons]
    rw [dictSet_fresh m kv.1 kv.2 (h1 kv (by simp))]
    rw [List.map_cons] at h2
    have hnd := List.nodup_cons.mp h2
    rw [ih (m ++ [(kv.1, kv.2)]) ?fresh hnd.2]
    · simp
    case fresh =>
      intro kv' hkv'
      rw [dictKeys_append]
      simp only [List.mem_append]
      rintro (hin | hin)
      · exact h1 kv' (by simp [hkv']) hin
      · have : kv'.1 = kv.1 := by simpa [dictKeys] using hin
        exact hnd.1 (this ▸ List.mem_map_of_mem (·.1) hkv')

theorem foldl_inner_flatMap {γ β : Type} (g : β → (Str × PyVal) → β)
    (f : γ → List (Str × PyVal)) (rows : List γ) (init : β) :
    rows.foldl (fun m r => (f r).foldl g m) init = (rows.flatMap f).foldl g init := by
  induction rows generalizing init with
  | nil => rfl
  | cons r rest ih => simp [List.flatMap_cons, List.foldl_append, ih]

theorem map_fst_flatMap_couponEntries (rows : List CouponRow) :
    (rows.flatMap couponEntries).map (·.1) =
      rows.flatMap fun r => couponSuffixes.map fun s => r.code ++ s := by
  rw [List.map_flatMap]
  rfl

theorem nodup_couponKeys (rows : List CouponRow) (hnd : (rows.map (·.code)).Nodup) :
    ((rows.flatMap couponEntries).map (·.1)).Nodup := by
  rw [map_fst_flatMap_couponEntries]
  induction rows with
  | nil => simp
  | cons r rest ih =>
    rw [List.map_cons] at hnd
    have hnd' := List.nodup_cons.mp hnd
    simp only [List.flatMap_cons]
    rw [List.nodup_append]
    refine ⟨?_, ih hnd'.2, ?_⟩
    · apply List.Nodup.map
      · intro a b hab
        exact List.append_cancel_left hab
      · decide
    · intro k hk1 hk2
      simp only [List.mem_map] at hk1
      obtain ⟨s, hs, hkeq⟩ := hk1
      simp only [List.mem_flatMap, List.mem_map] at hk2
      obtain ⟨r', hr', s', hs', hkeq'⟩ := hk2
      have hcodes := (couponKeysInj hs hs' (hkeq.trans hkeq'.symm)).1
      exact hnd'.1 (hcodes ▸ List.mem_map_of_mem (·.code) hr')

theorem mem_couponEntries_key {r : CouponRow} {kv : Str × PyVal} (h : kv ∈ couponEntries r) :
    ∃ s ∈ couponSuffixes, kv.1 = r.code ++ s := by
  simp only [couponEntries, List.mem_cons, List.not_mem_nil, or_false] at h
  rcases h with h | h | h | h
  · exact ⟨sufActive, by simp [couponSuffixes], by rw [h]⟩
  · exact ⟨sufTrials, by simp [couponSuffixes], by rw [h]⟩
  · exact ⟨sufConv, by simp [couponSuffixes], by rw [h]⟩
  · exact ⟨sufRate, by simp [couponSuffixes], by rw [h]⟩

theorem flattenCoupons_fresh (rows : List CouponRow) (init : Dict)
    (hfresh : ∀ r ∈ rows, ∀ s ∈ couponSuffixes, (r.code ++ s) ∉ dictKeys init)
    (hnd : (rows.map (·.code)).Nodup) :
    flattenCoupons rows init = init ++ rows.flatMap couponEntries := by
  rw [flattenCoupons, foldl_inner_flatMap]
  apply foldl_dictSet_fresh
  · intro kv hkv
    rw [List.mem_flatMap] at hkv
    obtain ⟨r, hr, hkv⟩ := hkv
    obtain ⟨s, hs, hkeq⟩ := mem_couponEntries_key hkv
    rw [hkeq]
    exact hfresh r hr s hs
  · exact nodup_couponKeys rows hnd

theorem couponPrefixesOf_append (a b : List Str) :
    couponPrefixesOf (a ++ b) = couponPrefixesOf a ++ couponPrefixesOf b := by
  simp [couponPrefixesOf, List.filter_append]

theorem couponPrefixesOf_row (c : Str) (hocc : occursIn sufActive c = false) :
    couponPrefixesOf (couponSuffixes.map fun s => c ++ s) = [c] := by
  have h1 : sufActive.isSuffixOf (c ++ sufActive) = true := isSuffixOf_append_self c
  have h2 : sufActive.isSuffixOf (c ++ sufTrials) = false := sufActive_not_suffix (Or.inl rfl) c
  have h3 : sufActive.isSuffixOf (c ++ sufConv) = false :=
    sufActive_not_suffix (Or.inr (Or.inl rfl)) c
  have h4 : sufActive.isSuffixOf (c ++ sufRate) = false :=
    sufActive_not_suffix (Or.inr (Or.inr rfl)) c
  show couponPrefixesOf ([sufActive, sufTrials, sufConv, sufRate].map fun s => c ++ s) = [c]
  simp only [couponPrefixesOf, List.map_cons, List.map_nil, List.filter_cons, List.filter_nil,
    h1, h2, h3, h4]
  simp only [if_true, if_false, List.map_cons, List.map_nil]
  rw [pyReplace_append_self sufActive_noSelfOverlap sufActive_ne_nil hocc]
  simp [Bool.false_eq_true]

theorem couponPrefixesOf_couponKeys (rows : List CouponRow)
    (hocc : ∀ r ∈ rows, occursIn sufActive r.code = false) :
    couponPrefixesOf ((rows.flatMap couponEntries).map (·.1)) = rows.map (·.code) := by
  rw [map_fst_flatMap_couponEntries]
  induction rows with
  | nil => rfl
  | cons r rest ih =>
    rw [List.flatMap_cons, couponPrefixesOf_append, couponPrefixesOf_row r.code (hocc r (by simp)),
      ih fun r' h => hocc r' (by simp [h])]
    rfl

theorem weekWindow_trailing_all (rows : List ChurnRow) (today : Int) :
    (weekWindow rows today).filter (fun r => decide (today - 7 ≤ r.statusDate)) =
      weekWindow rows today := by
  rw [List.filter_eq_self]
  intro r hr
  rw [weekWindow, List.mem_filter] at hr
  have h := hr.2
  simp only [Bool.and_eq_true] at h
  exact h.1.2

theorem monthWindow_trailing_all (rows : List ChurnRow) (today monthAgo : Int) :
    (monthWindow rows today monthAgo).filter (fun r => decide (monthAgo ≤ r.statusDate)) =
      monthWindow rows today monthAgo := by
  rw [List.filter_eq_self]
  intro r hr
  rw [monthWindow, List.mem_filter] at hr
  have h := hr.2
  simp only [Bool.and_eq_true] at h
  exact h.1.2

theorem isSuffixOf_append (c s : Str) : s.isSuffixOf (c ++ s) = true :=
  List.isSuffixOf_iff_suffix.mpr (List.suffix_append c s)

theorem dictGet?_of_mem {α : Type} {m : List (Str × α)} {k : Str} {v : α}
    (hmem : (k, v) ∈ m) (hnd : (m.map (·.1)).Nodup) :
    dictGet? m k = some v := by
  induction m with
  | nil => cases hmem
  | cons kv rest ih =>
    rw [List.map_cons] at hnd
    have hnd' := List.nodup_cons.mp hnd
    rcases List.mem_cons.mp hmem with h | h
    · subst h
      rw [dictGet?, List.find?_cons_of_pos _ (by simp)]
      rfl
    · have hne : kv.1 ≠ k := by
        intro he
        exact hnd'.1 (he ▸ List.mem_map_of_mem (·.1) h)
      rw [dictGet?, List.find?_cons_of_neg _ (by simp [hne])]
      exact ih h hnd'.2

theorem pySumGo_ok_of_int (vs : List EVal) (hv : ∀ v ∈ vs, isIntVal v = true) :
    ∀ acc : Int, pySumGo acc vs = .ok ((vs.map evalIntD).foldl (· + ·) acc) := by
  induction vs with
  | nil => intro acc; rfl
  | cons v vs ih =>
    intro acc
    have hvi := hv v (by simp)
    cases v with
    | vInt n =>
      rw [pySumGo]
      rw [ih fun w hw => hv w (by simp [hw])]
      rfl
    | vStr s => simp [isIntVal] at hvi
    | vNull => simp [isIntVal] at hvi

theorem pyGet_int (e : Event) (k : Str)
    (hv : ∀ kv ∈ e, (sufActive.isSuffixOf kv.1 = true ∨ sufTrials.isSuffixOf kv.1 = true) →
      isIntVal kv.2 = true)
    (hk : sufActive.isSuffixOf k = true ∨ sufTrials.isSuffixOf k = true) :
    isIntVal (pyGet e k (.vInt 0)) = true := by
  rw [pyGet]
  cases hf : e.find? fun kv => decide (kv.1 = k) with
  | none => rfl
  | some kv =>
    have hmem := List.mem_of_find?_eq_some hf
    have hp := List.find?_some hf
    have hkk : kv.1 = k := of_decide_eq_true hp
    exact hv kv hmem (hkk ▸ hk)

theorem exceptIsError_bind {α β : Type} (a : Except Str α) (f : α → Except Str β)
    (h : exceptIsError a = true) : exceptIsError (a.bind f) = true := by
  cases a with
  | error e => rfl
  | ok v => simp [exceptIsError] at h

theorem mapME_error_of_mem {α β : Type} (f : α → Except Str β) (xs : List α) (x : α)
    (hx : x ∈ xs) (he : exceptIsError (f x) = true) :
    exceptIsError (mapME f xs) = true := by
  induction xs with
  | nil => cases hx
  | cons y ys ih =>
    rw [mapME]
    rcases List.mem_cons.mp hx with h | h
    · subst h
      exact exceptIsError_bind _ _ he
    · cases hfy : f y with
      | error e => rfl
      | ok v =>
        show exceptIsError ((mapME f ys).bind _) = true
        exact exceptIsError_bind _ _ (ih h)

theorem viewCell_error (resp : PendoResp) (sp : (Str × Str) × (Str × Str))
    (he : exceptIsError (resp (.pageQ sp.1.2 sp.2.2)) = true) :
    exceptIsError (viewCell resp sp) = true := by
  rw [viewCell]
  exact exceptIsError_bind _ _ he

theorem clickCell_error (resp : PendoResp) (sg : (Str × Str) × (Str × List Str)) (fid : Str)
    (hfid : fid ∈ sg.2.2) (he : exceptIsError (resp (.featQ sg.1.2 fid)) = true) :
    exceptIsError (clickCell resp sg) = true := by
  rw [clickCell]
  exact exceptIsError_bind _ _ (mapME_error_of_mem _ _ fid hfid he)

theorem extractData_error (cfg : PendoConfig) (resp : PendoResp)
    (h : ∃ q ∈ pendoGridQueries cfg, exceptIsError (resp q) = true) :
    exceptIsError (extractData cfg resp) = true := by
  obtain ⟨q, hq, he⟩ := h
  rw [pendoGridQueries, List.mem_append] at hq
  rw [extractData]
  rcases hq with hq | hq
  · rw [List.mem_map] at hq
    obtain ⟨sp, hsp, hqe⟩ := hq
    exact exceptIsError_bind _ _
      (mapME_error_of_mem _ _ sp hsp (viewCell_error resp sp (by rw [hqe]; exact he)))
  · rw [List.mem_flatMap] at hq
    obtain ⟨sg, hsg, hq⟩ := hq
    rw [List.mem_map] at hq
    obtain ⟨fid, hfid, hqe⟩ := hq
    have hclick : exceptIsError (mapME (clickCell resp)
        (listProd (segmentsList cfg) (featureGroupsList cfg))) = true :=
      mapME_error_of_mem _ _ sg hsg (clickCell_error resp sg fid hfid (by rw [hqe]; exact he))
    cases hv : mapME (viewCell resp) (listProd (segmentsList cfg) (pagesList cfg)) with
    | error e => rfl
    | ok vrows =>
      show exceptIsError ((mapME (clickCell resp)
        (listProd (segmentsList cfg) (featureGroupsList cfg))).bind _) = true
      exact exceptIsError_bind _ _ hclick

theorem totalActiveUsers_ok (e : Event)
    (hv : ∀ kv ∈ e, (sufActive.isSuffixOf kv.1 = true ∨ sufTrials.isSuffixOf kv.1 = true) →
      isIntVal kv.2 = true) :
    totalActiveUsers e = .ok (totalActiveUsersT e) := by
  have hvint : ∀ v ∈ (couponPrefixes e).map fun p => pyGet e (p ++ sufActive) (.vInt 0),
      isIntVal v = true := by
    intro v hvm
    rw [List.mem_map] at hvm
    obtain ⟨p, hp, hveq⟩ := hvm
    rw [← hveq]
    exact pyGet_int e _ hv (Or.inl (isSuffixOf_append p sufActive))
  rw [totalActiveUsers, pySum, pySumGo_ok_of_int _ hvint 0, totalActiveUsersT, List.map_map]
  rfl

theorem trialsWithCoupon_ok (e : Event)
    (hv : ∀ kv ∈ e, (sufActive.isSuffixOf kv.1 = true ∨ sufTrials.isSuffixOf kv.1 = true) →
      isIntVal kv.2 = true) :
    trialsWithCoupon e = .ok (trialsWithCouponT e) := by
  have hvint : ∀ v ∈ ((couponPrefixes e).filter fun p => ! decide (pyLower p = noCouponLit)).map
      fun p => pyGet e (p ++ sufTrials) (.vInt 0), isIntVal v = true := by
    intro v hvm
    rw [List.mem_map] at hvm
    obtain ⟨p, hp, hveq⟩ := hvm
    rw [← hveq]
    exact pyGet_int e _ hv (Or.inr (isSuffixOf_append p sufTrials))
  rw [trialsWithCoupon, pySum, pySumGo_ok_of_int _ hvint 0, trialsWithCouponT, List.map_map]
  rfl

/-- C1 counterexample: in the `churn_last_month` CTE the past-due figure does
not use a 7-day trailing window.  With the current date at day 100 and the
month boundary at day 70, a single row dated day 80 (within the month window
but more than 7 days old) is counted by the CTE's past-due column, while no
row's status-change date lies within the 7 days before the current date. -/
theorem churn_month_past_due_not_seven_day :
    (churnLastMonth churnRowsCe 100 70).pastDue = 1 ∧
      countDistinctEmails churnRowsCe
        (fun r => decide (100 - 7 ≤ r.statusDate ∧ r.statusDate < 100)) = 0 := by
  constructor <;> rfl

/-- C1 amended: the past-due figure uses the 7-day trailing window only in the
`churn_total` and `churn_last_week` CTEs (`status_date >= CURRENT_DATE -
INTERVAL '7 days'`, with no upper bound).  The `churn_last_month` CTE instead
uses `CURRENT_DATE - INTERVAL '1 month'`, which its outer WHERE filter already
guarantees, so its past-due column simply counts every distinct email of the
month window; likewise the week CTE's trailing filter is implied by its
window, so it counts every distinct email of the week window. -/
theorem churn_past_due_windows (rows : List ChurnRow) (today monthAgo : Int) :
    (churnTotal rows today).pastDue =
        countDistinctEmails (rows.filter fun r => r.email.isSome)
          (fun r => decide (today - 7 ≤ r.statusDate)) ∧
      (churnLastWeek rows today).pastDue =
        (((weekWindow rows today).filterMap (·.email)).dedup).length ∧
      (churnLastMonth rows today monthAgo).pastDue =
        (((monthWindow rows today monthAgo).filterMap (·.email)).dedup).length := by
  refine ⟨rfl, ?_, ?_⟩
  · show countDistinctEmails (weekWindow rows today) _ = _
    rw [countDistinctEmails, weekWindow_trailing_all]
  · show countDistinctEmails (monthWindow rows today monthAgo) _ = _
    rw [countDistinctEmails, monthWindow_trailing_all]

/-- C2 counterexample: when the Redshift phase raises `boom` and the SNS
publish raises `sns down`, the exception that propagates out of the
extractor's `lambda_handler` is the SNS one, not the original. -/
theorem sns_failure_masks_original :
    (lambdaHandlerExtract extractEnvCe).2 = .error "sns down".data ∧
      ("sns down".data : Str) ≠ "boom".data := by
  constructor
  · rfl
  · decide

/-- C2 amended: when the extractor job fails and the SNS publish also fails,
both failures are logged, but the exception that propagates out of the
handler is the SNS publishing failure — `send_sns_notification` re-raises it
inside the `except` block, so the final `raise` of the original exception is
never reached and the original error is masked (surviving only in the
logs). -/
theorem sns_failure_logged_and_propagates (orig snsErr : Str) (inv : Option Str) :
    (lambdaHandlerExtract ⟨.error orig, inv, some snsErr⟩).2 = .error snsErr ∧
      LogEntry.logError ("Failed to send SNS notification: ".data ++ snsErr) ∈
        (lambdaHandlerExtract ⟨.error orig, inv, some snsErr⟩).1 ∧
      LogEntry.logError ("Lambda daily_bot_stats_extract failed: ".data ++ orig) ∈
        (lambdaHandlerExtract ⟨.error orig, inv, some snsErr⟩).1 := by
  refine ⟨rfl, ?_, ?_⟩
  · show LogEntry.logError ("Failed to send SNS notification: ".data ++ snsErr) ∈
      [ LogEntry.logError ("Lambda daily_bot_stats_extract failed: ".data ++ orig)
      , LogEntry.logError ("Failed to send SNS notification: ".data ++ snsErr) ]
    simp
  · show LogEntry.logError ("Lambda daily_bot_stats_extract failed: ".data ++ orig) ∈
      [ LogEntry.logError ("Lambda daily_bot_stats_extract failed: ".data ++ orig)
      , LogEntry.logError ("Failed to send SNS notification: ".data ++ snsErr) ]
    simp

/-- C3 counterexample: a conversion rate that arrives as the integer `0` is
stored unchanged as an integer under `SAVE10_conversion_rate` — the
`float(...)` coercion applies only to `Decimal` values, so an integer source
value is not normalized to a plain float. -/
theorem conversion_rate_int_passthrough :
    dictGet? (flattenCoupons [couponRowInt] []) ("SAVE10".data ++ sufRate) =
        some (PyVal.pyInt 0) ∧
      isFloatV (PyVal.pyInt 0) = false := by
  constructor <;> rfl

/-- C3 amended: the value stored under `{code}_conversion_rate` is a plain
float whenever the source value is a `Decimal` (which is coerced) or already a
`float` (which passes through); other numeric representations such as
integers are stored unchanged, not converted. -/
theorem conversion_rate_float_of_numeric (rows : List CouponRow) (r : CouponRow)
    (hmem : r ∈ rows) (hnd : (rows.map (·.code)).Nodup)
    (hnum : isDecimalV r.rate = true ∨ isFloatV r.rate = true) :
    optIsFloat (dictGet? (flattenCoupons rows []) (r.code ++ sufRate)) = true := by
  rw [flattenCoupons_fresh rows [] (by simp [dictKeys]) hnd, List.nil_append]
  have hkv : (r.code ++ sufRate, normalizeRate r.rate) ∈ rows.flatMap couponEntries := by
    rw [List.mem_flatMap]
    exact ⟨r, hmem, by simp [couponEntries]⟩
  have hget := dictGet?_of_mem hkv (nodup_couponKeys rows hnd)
  rw [hget]
  cases hr : r.rate with
  | pyDecimal q => rfl
  | pyFloat q => rfl
  | pyInt n => rw [hr] at hnum; simp [isDecimalV, isFloatV] at hnum
  | pyStr s => rw [hr] at hnum; simp [isDecimalV, isFloatV] at hnum
  | pyNone => rw [hr] at hnum; simp [isDecimalV, isFloatV] at hnum

/-- C3 witness: for the concrete row set whose `SAVE10` rate is `Decimal` 2/5,
the stored conversion rate is a plain float. -/
theorem conversion_rate_float_of_numeric_witness :
    optIsFloat (dictGet? (flattenCoupons couponRowsW []) ("SAVE10".data ++ sufRate)) = true :=
  conversion_rate_float_of_numeric couponRowsW couponRowDec (by simp [couponRowsW])
    (by decide) (Or.inl rfl)

/-- C4: the claim that the warehouse connection is released even on error is
wrong on this code — `get_data_from_redshift` has no `finally`, so when the
first query step raises, the function propagates the error with the
connection opened and never closed. -/
theorem redshift_connection_left_open_on_error :
    (getDataFromRedshift rsEnvCe).connOpened = true ∧
      (getDataFromRedshift rsEnvCe).connClosed = false := by
  constructor <;> rfl

theorem buildMessage_df_irrel (e : Event) (c1 c2 : List ClickRow) (v1 v2 : List ViewRow) :
    buildMessage e c1 v1 = buildMessage e c2 v2 := rfl

/-- C5 counterexample: the composed report does not depend on the analytics
dataframes — there is no event mapping and pair of differing analytics
results whose report texts differ, because `build_message` never reads the
dataframes it receives. -/
theorem build_message_analytics_dependence_refuted :
    ¬ ∃ (e : Event) (c1 : List ClickRow) (v1 : List ViewRow)
        (c2 : List ClickRow) (v2 : List ViewRow),
        ((c1, v1) ≠ (c2, v2)) ∧ buildMessage e c1 v1 ≠ buildMessage e c2 v2 := by
  rintro ⟨e, c1, v1, c2, v2, _, hne⟩
  exact hne (buildMessage_df_irrel e c1 c2 v1 v2)

/-- C5 amended: `build_message`'s output depends only on the event mapping;
the clicks and views dataframes are accepted, as in the source signature, but
the body never reads them, so any two analytics results yield the identical
report text. -/
theorem build_message_analytics_independent (e : Event) (c1 c2 : List ClickRow)
    (v1 v2 : List ViewRow) : buildMessage e c1 v1 = buildMessage e c2 v2 :=
  buildMessage_df_irrel e c1 c2 v1 v2

theorem dictGet?_append_right {α : Type} (m1 m2 : List (Str × α)) (k : Str)
    (h : k ∉ dictKeys m1) : dictGet? (m1 ++ m2) k = dictGet? m2 k := by
  induction m1 with
  | nil => rfl
  | cons kv rest ih =>
    have hne : kv.1 ≠ k := by
      intro he
      apply h
      rw [dictKeys, List.map_cons, he]
      exact List.mem_cons_self _ _
    have h' : k ∉ dictKeys rest := by
      intro hk
      apply h
      rw [dictKeys, List.map_cons]
      exact List.mem_cons_of_mem _ hk
    rw [List.cons_append, dictGet?, List.find?_cons_of_neg _ (by simp [hne])]
    exact ih h'

/-- C6: flattening coupon rows (with pairwise distinct codes, into a mapping
free of those keys) adds, for every coupon code of the result set, exactly
the four keys `code_coupon_active_subscriptions`, `code_total_trials`,
`code_total_conversions`, `code_conversion_rate`, in that order, and no other
key — and each of the four keys holds that row's corresponding value (the
active-subscription count, the trial count, the conversion count, and the
normalized conversion rate). -/
theorem coupon_flatten_keys_exact (rows : List CouponRow) (init : Dict)
    (hfresh : ∀ r ∈ rows, ∀ s ∈ couponSuffixes, (r.code ++ s) ∉ dictKeys init)
    (hnd : (rows.map (·.code)).Nodup) :
    (dictKeys (flattenCoupons rows init) =
        dictKeys init ++ rows.flatMap fun r => couponSuffixes.map fun s => r.code ++ s) ∧
      ∀ r ∈ rows,
        dictGet? (flattenCoupons rows init) (r.code ++ sufActive) = some r.active ∧
        dictGet? (flattenCoupons rows init) (r.code ++ sufTrials) = some r.trials ∧
        dictGet? (flattenCoupons rows init) (r.code ++ sufConv) = some r.convs ∧
        dictGet? (flattenCoupons rows init) (r.code ++ sufRate) = some (normalizeRate r.rate) := by
  constructor
  · rw [flattenCoupons_fresh rows init hfresh hnd, dictKeys_append]
    exact congrArg (dictKeys init ++ ·) (map_fst_flatMap_couponEntries rows)
  · intro r hr
    rw [flattenCoupons_fresh rows init hfresh hnd]
    have hnodup := nodup_couponKeys rows hnd
    refine ⟨?_, ?_, ?_, ?_⟩ <;>
    · rw [dictGet?_append_right init _ _ (hfresh r hr _ (by simp [couponSuffixes]))]
      exact dictGet?_of_mem
        (by rw [List.mem_flatMap]; exact ⟨r, hr, by simp [couponEntries]⟩) hnodup

/-- C6 witness: flattening the concrete `SAVE10` and `No Coupon Code` rows on
top of a mapping holding the static key `total` yields exactly `total`
followed by the two blocks of four coupon keys, and the `SAVE10` keys hold
that row's counts. -/
theorem coupon_flatten_keys_exact_witness :
    (dictKeys (flattenCoupons couponRowsW initW) =
        dictKeys initW ++ couponRowsW.flatMap fun r => couponSuffixes.map fun s => r.code ++ s) ∧
      dictGet? (flattenCoupons couponRowsW initW) ("SAVE10".data ++ sufActive) =
        some (PyVal.pyInt 5) ∧
      dictGet? (flattenCoupons couponRowsW initW) ("SAVE10".data ++ sufTrials) =
        some (PyVal.pyInt 20) ∧
      dictGet? (flattenCoupons couponRowsW initW) ("SAVE10".data ++ sufConv) =
        some (PyVal.pyInt 8) := by
  obtain ⟨hkeys, hvals⟩ := coupon_flatten_keys_exact couponRowsW initW (by decide) (by decide)
  have h1 := hvals couponRowDec (by simp [couponRowsW])
  exact ⟨hkeys, h1.1, h1.2.1, h1.2.2.1⟩

/-- C7: round trip of flattening and key discovery — for a coupon result set
with pairwise distinct codes, none containing the
`_coupon_active_subscriptions` separator-suffix as a substring, filtering the
flattened mapping's keys by that suffix and stripping it (with `str.replace`,
as the consumer does) recovers exactly the list of flattened coupon codes. -/
theorem coupon_code_roundtrip (rows : List CouponRow)
    (hnd : (rows.map (·.code)).Nodup)
    (hocc : ∀ r ∈ rows, occursIn sufActive r.code = false) :
    couponPrefixesOf (dictKeys (flattenCoupons rows [])) = rows.map (·.code) := by
  rw [flattenCoupons_fresh rows [] (by simp [dictKeys]) hnd, List.nil_append]
  exact couponPrefixesOf_couponKeys rows hocc

/-- C7 witness: discovery over the flattened `SAVE10` and `No Coupon Code`
rows yields exactly those two codes, in order. -/
theorem coupon_code_roundtrip_witness :
    couponPrefixesOf (dictKeys (flattenCoupons couponRowsW [])) = couponRowsW.map (·.code) :=
  coupon_code_roundtrip couponRowsW (by decide) (by decide)

/-- C8: if any analytics grid query of the run answers with a non-success
response, the notifier aborts before the Slack webhook is ever called — the
run's outward actions contain no Slack post, so no partial report is
delivered. -/
theorem no_slack_after_analytics_failure (env : NotifyEnv)
    (h : ∃ q ∈ pendoGridQueries env.cfg, exceptIsError (env.resp q) = true) :
    calledSlack (lambdaHandlerNotify env).1 = false := by
  have hext := extractData_error env.cfg env.resp h
  cases hb : extractData env.cfg env.resp with
  | ok v => rw [hb] at hext; simp [exceptIsError] at hext
  | error e =>
    cases hsf : env.snsFail with
    | none => rw [lambdaHandlerNotify, hb, hsf]; rfl
    | some s => rw [lambdaHandlerNotify, hb, hsf]; rfl

/-- C8 witness: against an analytics API that answers every query with a 500,
the notifier run performs no Slack post. -/
theorem no_slack_after_analytics_failure_witness :
    calledSlack (lambdaHandlerNotify envW).1 = false :=
  no_slack_after_analytics_failure envW (by decide)

/-- C9 counterexample: `build_message` does not compose its report for every
event mapping — when the value stored under a discovered coupon's
`_coupon_active_subscriptions` key is JSON null (Python `None`), the
`sum(...)` over active-subscription counts raises a `TypeError`. -/
theorem build_message_raises_on_null_coupon_value :
    exceptIsError (buildMessage eventNull [] []) = true := by rfl

/-- C9 amended: for every event mapping whose values stored at keys ending in
`_coupon_active_subscriptions` or `_total_trials` are integers,
`build_message` composes its report without raising, the lines are appended
in the fixed source order, and every absent metric key contributes the
default `0` (the defaults are the `.get(key, 0)` lookups visible in the
rendered lines); a null or string value at a summed coupon key instead makes
the composition raise a `TypeError`. -/
theorem build_message_fixed_lines_on_int_values (e : Event) (cl : List ClickRow)
    (vw : List ViewRow)
    (hv : ∀ kv ∈ e, (sufActive.isSuffixOf kv.1 = true ∨ sufTrials.isSuffixOf kv.1 = true) →
      isIntVal kv.2 = true) :
    buildMessage e cl vw = .ok (joinLines
      [ "Stats for ".data ++ renderVal (pyGet e "report_date".data (.vStr []))
      , "•  Lifetime user total: ".data ++ renderVal (pyGet e "total".data (.vInt 0))
      , "•  Active snapshot stats :".data
      , "   ○  Total Active Users: ".data ++ (toString (totalActiveUsersT e)).data
      , "   ○  Total Active Trial Users without a coupon: ".data ++
          renderVal (trialsWithoutCoupon e)
      , "   ○  Total Active Trial Users with a coupon: ".data ++
          (toString (trialsWithCouponT e)).data ]) := by
  rw [buildMessage, totalActiveUsers_ok e hv, trialsWithCoupon_ok e hv]
  rfl

/-- C9 witness: the fixed-order report for a concrete integer-valued mapping
with a string report date, a lifetime total, and one coupon group. -/
theorem build_message_fixed_lines_witness :
    buildMessage eventW [] [] = .ok (joinLines
      [ "Stats for ".data ++ renderVal (pyGet eventW "report_date".data (.vStr []))
      , "•  Lifetime user total: ".data ++ renderVal (pyGet eventW "total".data (.vInt 0))
      , "•  Active snapshot stats :".data
      , "   ○  Total Active Users: ".data ++ (toString (totalActiveUsersT eventW)).data
      , "   ○  Total Active Trial Users without a coupon: ".data ++
          renderVal (trialsWithoutCoupon eventW)
      , "   ○  Total Active Trial Users with a coupon: ".data ++
          (toString (trialsWithCouponT eventW)).data ]) :=
  build_message_fixed_lines_on_int_values eventW [] [] (by decide)

/-- C10: the with/without-coupon split of trial counts is case-insensitive on
the discovered prefix: for an event mapping carrying one coupon group with
prefix `c`, the `without a coupon` figure is that group's trial count exactly
when `c.lower()` equals `no coupon code` (and `0` otherwise), while the
`with a coupon` sum gets the trial count exactly when the lowercase form
differs — so a prefix such as `NO COUPON CODE` is classified as
without-coupon even though it is not the exact literal `No Coupon Code`. -/
theorem coupon_split_case_insensitive (c : Str) (a t : Int)
    (hocc : occursIn sufActive c = false) :
    trialsWithoutCoupon [(c ++ sufActive, .vInt a), (c ++ sufTrials, .vInt t)] =
        .vInt (if pyLower c = noCouponLit then t else 0) ∧
      trialsWithCoupon [(c ++ sufActive, .vInt a), (c ++ sufTrials, .vInt t)] =
        .ok (if pyLower c = noCouponLit then 0 else t) := by
  have hkeys : couponPrefixes [(c ++ sufActive, EVal.vInt a), (c ++ sufTrials, EVal.vInt t)] =
      [c] := by
    show couponPrefixesOf [c ++ sufActive, c ++ sufTrials] = [c]
    simp only [couponPrefixesOf, List.filter_cons, List.filter_nil,
      isSuffixOf_append c sufActive, sufActive_not_suffix (Or.inl rfl) c]
    simp only [if_true, Bool.false_eq_true, if_false, List.map_cons, List.map_nil]
    rw [pyReplace_append_self sufActive_noSelfOverlap sufActive_ne_nil hocc]
  have hget : pyGet [(c ++ sufActive, EVal.vInt a), (c ++ sufTrials, EVal.vInt t)]
      (c ++ sufTrials) (.vInt 0) = .vInt t := by
    have hne : (c ++ sufActive) ≠ (c ++ sufTrials) := by
      intro h
      exact absurd (List.append_cancel_left h) (by decide)
    rw [pyGet, List.find?_cons_of_neg _ (by simp [hne]), List.find?_cons_of_pos _ (by simp)]
  by_cases hc : pyLower c = noCouponLit
  · constructor
    · rw [trialsWithoutCoupon, noCouponKeyOf, hkeys,
        List.find?_cons_of_pos _ (by simp [hc])]
      rw [if_pos hc]
      exact hget
    · rw [trialsWithCoupon, hkeys]
      simp [hc, pySum, pySumGo]
  · constructor
    · rw [trialsWithoutCoupon, noCouponKeyOf, hkeys,
        List.find?_cons_of_neg _ (by simp [hc])]
      rw [if_neg hc]
      rfl
    · rw [trialsWithCoupon, hkeys]
      simp [hc, hget, pySum, pySumGo]

/-- C10 witness: the prefix `NO COUPON CODE` — not the exact literal
`No Coupon Code` — is classified as without-coupon: its 42 trials land on the
without-coupon figure and the with-coupon sum is 0. -/
theorem coupon_split_case_insensitive_witness :
    trialsWithoutCoupon [("NO COUPON CODE".data ++ sufActive, .vInt 1),
        ("NO COUPON CODE".data ++ sufTrials, .vInt 42)] = .vInt 42 ∧
      trialsWithCoupon [("NO COUPON CODE".data ++ sufActive, .vInt 1),
        ("NO COUPON CODE".data ++ sufTrials, .vInt 42)] = .ok 0 := by
  have h := coupon_split_case_insensitive "NO COUPON CODE".data 1 42 (by decide)
  have hl : pyLower "NO COUPON CODE".data = noCouponLit := by decide
  rw [if_pos hl, if_pos hl] at h
  exact h
